import Mathlib

/-!
Shallow embedding of the interaction core of `portableweather.ino`
(PORTABLE-WEATHER-STATION): the button debouncer, the screen navigation
state machine, the on-screen keyboard editor and the Wi-Fi connection
state machine, translated from the Arduino source.

Booleans model raw digital levels with pull-up wiring as in the source:
`true` = HIGH (released), `false` = LOW (pressed).  Timestamps are
`millis()` values in milliseconds, modelled as `Nat`.
-/

/-- `DEBOUNCE_MS` from the source: button debounce window. -/
def DEBOUNCE_MS : Nat := 30

/-- `LONGPRESS_MS` from the source: long-press threshold. -/
def LONGPRESS_MS : Nat := 1200

/-- `UI_REFRESH_MS` from the source: periodic UI refresh interval. -/
def UI_REFRESH_MS : Nat := 700

/-- `WIFI_CONNECT_TIMEOUT` from the source: 20 s connect timeout. -/
def WIFI_CONNECT_TIMEOUT : Nat := 20000

/-- `MENU_COUNT = sizeof(MENU_ITEMS)/sizeof(MENU_ITEMS[0])`: the visible
menu array has five entries. -/
def MENU_COUNT : Int := 5

/-- `KEYBOARD_ROWS` from the source. -/
def KEYBOARD_ROWS : Int := 6

/-- `KEYBOARD_COLS` from the source. -/
def KEYBOARD_COLS : Int := 10

/-- The `Btn` struct: per-button debouncer state. -/
structure Btn where
  stable : Bool
  lastRaw : Bool
  lastChange : Nat
  pressedAt : Nat
  prevStable : Bool
  toggles : Nat
deriving DecidableEq

/-- The `initB` lambda in `setupButtons`: initialise a button from the
current raw level `raw` read at time `t`. -/
def initB (raw : Bool) (t : Nat) : Btn :=
  { stable := raw, lastRaw := raw, lastChange := t, pressedAt := 0
    prevStable := raw, toggles := 0 }

/-- The `updateOne` lambda in `updateButtons`: one debouncer step for one
button, sampling raw level `raw` at time `t` (`millis()`). -/
def updateOne (b : Btn) (t : Nat) (raw : Bool) : Btn :=
  if raw ≠ b.lastRaw then
    { b with lastChange := t, lastRaw := raw }
  else if DEBOUNCE_MS < t - b.lastChange ∧ b.stable ≠ raw then
    { b with stable := raw
             pressedAt := if raw = false then t else 0
             toggles := b.toggles + 1 }
  else b

/-- `pressedEdge`: fires when the previous stable level was HIGH and the
stable level is LOW; mutates `prevStable` (returned as second component). -/
def pressedEdge (b : Btn) : Bool × Btn :=
  (b.prevStable && !b.stable, { b with prevStable := b.stable })

/-- `isPressed`: stable level is LOW. -/
def isPressed (b : Btn) : Bool := b.stable == false

/-- One `loop` tick as seen by a single button: the button's `updateOne`
inside `updateButtons`, then the single `pressedEdge` query `loop`
performs for it. -/
def btnTick (b : Btn) (t : Nat) (raw : Bool) : Bool × Btn :=
  pressedEdge (updateOne b t raw)

/-- Number of `pressedEdge` fires over a sequence of `(time, raw)`
samples, one per tick. -/
def fireCount (b : Btn) : List (Nat × Bool) → Nat
  | [] => 0
  | s :: rest =>
    let r := btnTick b s.1 s.2
    (if r.1 then 1 else 0) + fireCount r.2 rest

/-- The spec's ButtonState invariant: `pressedAt` is nonzero iff the
debounced stable level is pressed (LOW). -/
def btnInv (b : Btn) : Prop := b.pressedAt ≠ 0 ↔ b.stable = false

instance (b : Btn) : Decidable (btnInv b) :=
  inferInstanceAs (Decidable (b.pressedAt ≠ 0 ↔ b.stable = false))

/-- The `Screen` enum.  `wifiManualSetup` models `SCREEN_WIFI_MANUAL_SETUP`,
which `loop` references although the source's `enum Screen` never declares
it (the sketch does not compile as written); it is included as the
distinct screen value the dispatch code names. -/
inductive Screen where
  | loading
  | menu
  | localWeather
  | apiWeather
  | geolocation
  | wifiScan
  | wifiPassword
  | wifiConnecting
  | wifiResult
  | info
  | wifiKeyboard
  | wifiManualSetup
deriving DecidableEq

/-- The `WiFiConnectState` enum (`WFC_*`). -/
inductive WiFiConnectState where
  | idle
  | connecting
  | connected
  | failed
deriving DecidableEq

/-- The sketch's global mutable state relevant to navigation, keyboard
editing and the connection state machine.  Render-only globals
(`localWeatherInitialized`, colors, etc.) are omitted.  `prefSsid` and
`prefPwd` model the two Preferences entries (`wifi_ssid`, `wifi_pwd`). -/
structure AppState where
  currentScreen : Screen
  previousScreen : Screen
  menuIndex : Int
  scannedSSIDs : List (List Char)
  scannedCount : Int
  wifiListIndex : Int
  manualSSID : List Char
  manualPassword : List Char
  editingSSID : Bool
  wifiConnected : Bool
  wifiConnectState : WiFiConnectState
  wifiConnectStart : Nat
  kbRow : Int
  kbCol : Int
  lastUiRefresh : Nat
  prefSsid : List Char
  prefPwd : List Char
deriving DecidableEq

/-- `keyboardCells`: the fixed 6×10 character grid. -/
def keyboardCells : List (List Char) :=
  ["abcdefghiJ".data, "klmnopqrst".data, "uvwxyzABCD".data,
   "EFGHIJKLMN".data, "OPQRSTUVWX".data, "YZ01234567".data]

/-- `extraSymbols`: the secondary symbol list for the last row. -/
def extraSymbols : List Char := "!@#.-_/:*?&".data

/-- Character inserted by the Select-long gesture at cursor `(r, c)`
(source lines 524–530): the grid cell, overridden on the last row from
column 8 on by `extraSymbols` when the symbol index is in range.  The
cursor is kept in bounds by the clamped moves, so the `getD` defaults are
never reached from reachable cursor positions. -/
def keyCharAt (r c : Int) : Char :=
  let ch := (keyboardCells.getD r.toNat []).getD c.toNat 'a'
  if r = KEYBOARD_ROWS - 1 ∧ 8 ≤ c then
    if c - 8 < (extraSymbols.length : Int) then
      extraSymbols.getD (c - 8).toNat ch
    else ch
  else ch

/-- A transition to the menu screen (`currentScreen = SCREEN_MENU;
showMenu();` — `showMenu` itself only renders). -/
def gotoMenu (s : AppState) : AppState := { s with currentScreen := Screen.menu }

/-- `startWifiScanAndShow`, with the outcome of the external
`WiFi.scanNetworks` call supplied as the list `scanned` of network
names: cap at 31, substitute the sentinel entry when empty, reset the
list index. -/
def startWifiScanAndShow (s : AppState) (scanned : List (List Char)) : AppState :=
  let c0 : Int := scanned.length
  let c1 := if 31 < c0 then 31 else c0
  if c1 ≤ 0 then
    { s with scannedCount := 1
             scannedSSIDs := ["No networks found".data]
             wifiListIndex := 0 }
  else
    { s with scannedCount := c1
             scannedSSIDs := scanned.take 31
             wifiListIndex := 0 }

/-- The `pressedEdge(btnUp)` handling in `loop`. -/
def upShort (s : AppState) : AppState :=
  match s.currentScreen with
  | Screen.menu => { s with menuIndex := (s.menuIndex - 1 + MENU_COUNT) % MENU_COUNT }
  | Screen.wifiScan =>
    if 0 < s.scannedCount then
      { s with wifiListIndex := max 0 (s.wifiListIndex - 1) }
    else s
  | Screen.wifiKeyboard => { s with kbRow := max 0 (s.kbRow - 1) }
  | _ => s

/-- The `pressedEdge(btnDown)` handling in `loop`. -/
def downShort (s : AppState) : AppState :=
  match s.currentScreen with
  | Screen.menu => { s with menuIndex := (s.menuIndex + 1) % MENU_COUNT }
  | Screen.wifiScan =>
    if 0 < s.scannedCount then
      { s with wifiListIndex := min (s.scannedCount - 1) (s.wifiListIndex + 1) }
    else s
  | Screen.wifiKeyboard => { s with kbRow := min (KEYBOARD_ROWS - 1) (s.kbRow + 1) }
  | _ => s

/-- The `pressedEdge(btnSel)` handling in `loop` (Select-short).  The
outcome of `WiFi.scanNetworks` reached through menu case 3 is passed as
`scanned`.  The menu `switch` is modelled case by case on `menuIndex`,
including the `case 5` branch that sits beyond the five-entry menu
array. -/
def selShort (s : AppState) (scanned : List (List Char)) : AppState :=
  match s.currentScreen with
  | Screen.menu =>
    let s1 := { s with previousScreen := s.currentScreen }
    if s1.menuIndex = 0 then { s1 with currentScreen := Screen.localWeather }
    else if s1.menuIndex = 1 then { s1 with currentScreen := Screen.apiWeather }
    else if s1.menuIndex = 2 then { s1 with currentScreen := Screen.geolocation }
    else if s1.menuIndex = 3 then
      startWifiScanAndShow { s1 with currentScreen := Screen.wifiScan } scanned
    else if s1.menuIndex = 4 then { s1 with currentScreen := Screen.wifiManualSetup }
    else if s1.menuIndex = 5 then { s1 with currentScreen := Screen.info }
    else s1
  | Screen.localWeather => gotoMenu s
  | Screen.apiWeather => gotoMenu s
  | Screen.geolocation => gotoMenu s
  | Screen.wifiScan =>
    if 0 < s.scannedCount then
      { s with manualSSID := s.scannedSSIDs.getD s.wifiListIndex.toNat []
               manualPassword := []
               editingSSID := false
               currentScreen := Screen.wifiKeyboard
               kbRow := 0
               kbCol := 0 }
    else s
  | Screen.wifiPassword => s
  | Screen.wifiManualSetup => { s with editingSSID := !s.editingSSID }
  | Screen.wifiKeyboard => { s with kbCol := min (KEYBOARD_COLS - 1) (s.kbCol + 1) }
  | Screen.wifiConnecting => s
  | Screen.wifiResult => gotoMenu s
  | Screen.info => gotoMenu s
  | Screen.loading => s

/-- `showWiFiConnectResult`: sets `currentScreen = SCREEN_WIFI_RESULT`
(the drawn ok/message content is render-only). -/
def showWiFiConnectResult (s : AppState) : AppState :=
  { s with currentScreen := Screen.wifiResult }

/-- The `pressedEdge(btnBack)` handling in `loop` (Back-short).  On the
Connecting screen it aborts the attempt (`WiFi.disconnect`), marks
`WFC_FAILED` and shows the "Cancelled by user" result; the trailing
`else` covers every remaining screen. -/
def backShort (s : AppState) : AppState :=
  match s.currentScreen with
  | Screen.menu => s
  | Screen.wifiKeyboard => { s with kbCol := max 0 (s.kbCol - 1) }
  | Screen.localWeather => gotoMenu s
  | Screen.apiWeather => gotoMenu s
  | Screen.geolocation => gotoMenu s
  | Screen.wifiScan => gotoMenu s
  | Screen.wifiManualSetup => gotoMenu s
  | Screen.wifiConnecting =>
    showWiFiConnectResult { s with wifiConnectState := WiFiConnectState.failed }
  | _ => gotoMenu s

/-- `startWiFiConnect(ssid, pwd)` at time `now`: switch to the Connecting
screen, arm the state machine, record the start timestamp and store both
credentials in Preferences (the radio `WiFi.begin` call is external). -/
def startWiFiConnect (s : AppState) (ssid pwd : List Char) (now : Nat) : AppState :=
  { s with currentScreen := Screen.wifiConnecting
           wifiConnectState := WiFiConnectState.connecting
           wifiConnectStart := now
           prefSsid := ssid
           prefPwd := pwd }

/-- Outcome of one poll body: the new state, the `showWiFiConnectResult`
invocation if any (ok flag and message), and whether `WiFi.disconnect`
was instructed. -/
structure PollOut where
  st : AppState
  result : Option (Bool × String)
  abort : Bool
deriving DecidableEq

/-- The Connecting poll body (source lines 590–603): `linked` is the
sampled `WiFi.status() == WL_CONNECTED`, `ip` the acquired local
address.  Linked: transition to Connected and report the address.
Past the 20 s timeout: abort the radio and fail with "Timeout".
Otherwise: no externally visible change. -/
def pollStep (s : AppState) (now : Nat) (linked : Bool) (ip : String) : PollOut :=
  if linked then
    { st := showWiFiConnectResult
        { s with wifiConnectState := WiFiConnectState.connected, wifiConnected := true }
      result := some (true, "Connected: " ++ ip)
      abort := false }
  else if WIFI_CONNECT_TIMEOUT < now - s.wifiConnectStart then
    { st := showWiFiConnectResult
        { s with wifiConnectState := WiFiConnectState.failed, wifiConnected := false }
      result := some (false, "Timeout")
      abort := true }
  else { st := s, result := none, abort := false }

/-- Outcome of the periodic-refresh tail of a tick. -/
structure RefreshOut where
  st : AppState
  didPoll : Bool
  result : Option (Bool × String)
  abort : Bool
deriving DecidableEq

/-- The periodic-refresh tail of `loop` (source lines 584–605): nothing
runs unless the UI-refresh interval has elapsed; the poll body runs only
when additionally the screen is Connecting and the state machine is in
`WFC_CONNECTING` (the local-weather refresh branch is render-only). -/
def refreshTick (s : AppState) (now : Nat) (linked : Bool) (ip : String) : RefreshOut :=
  if UI_REFRESH_MS < now - s.lastUiRefresh then
    let s1 := { s with lastUiRefresh := now }
    if s1.currentScreen = Screen.wifiConnecting ∧
       s1.wifiConnectState = WiFiConnectState.connecting then
      let o := pollStep s1 now linked ip
      { st := o.st, didPoll := true, result := o.result, abort := o.abort }
    else { st := s1, didPoll := false, result := none, abort := false }
  else { st := s, didPoll := false, result := none, abort := false }

/-- Duration condition of the held gestures (e.g. source line 521):
stable-pressed, a press timestamp recorded, and held longer than the
long-press threshold at the tick's `millis()` value `now`. -/
def longHeld (now : Nat) (b : Btn) : Prop :=
  isPressed b = true ∧ b.pressedAt ≠ 0 ∧ LONGPRESS_MS < now - b.pressedAt

instance (now : Nat) (b : Btn) : Decidable (longHeld now b) :=
  inferInstanceAs
    (Decidable (isPressed b = true ∧ b.pressedAt ≠ 0 ∧ LONGPRESS_MS < now - b.pressedAt))

/-- Postcondition of the busy-wait
`while (isPressed(b)) { delay(10); updateButtons(); }`: the loop exits
exactly when the button's stable level has committed to released, and
that commit (in `updateOne`, raw HIGH) also cleared `pressedAt`. -/
def waitRelease (b : Btn) : Btn := { b with stable := true, pressedAt := 0 }

/-- A button in the released rest state. -/
def releasedBtn : Btn :=
  { stable := true, lastRaw := true, lastChange := 0, pressedAt := 0
    prevStable := true, toggles := 0 }

/-- `insertHighlighted` body (source lines 524–535): append the character
under the cursor to the active buffer, silently capped at the buffer's
maximum length (32 for the network name, 64 for the secret). -/
def insertActiveChar (s : AppState) : AppState :=
  let ch := keyCharAt s.kbRow s.kbCol
  if s.editingSSID then
    if s.manualSSID.length < 32 then { s with manualSSID := s.manualSSID ++ [ch] }
    else s
  else
    if s.manualPassword.length < 64 then { s with manualPassword := s.manualPassword ++ [ch] }
    else s

/-- `deleteLast` body (source lines 544–548): drop the final character of
the active buffer when non-empty. -/
def deleteActiveChar (s : AppState) : AppState :=
  if s.editingSSID then
    if 0 < s.manualSSID.length then { s with manualSSID := s.manualSSID.dropLast }
    else s
  else
    if 0 < s.manualPassword.length then { s with manualPassword := s.manualPassword.dropLast }
    else s

/-- Result of the keyboard long-press section of a tick. -/
structure KbOut where
  st : AppState
  sel : Btn
  back : Btn
  connectStarted : Bool
deriving DecidableEq

/-- The long-press section of `loop` for the keyboard screen (source
lines 520–568), run with the tick's `millis()` value `now`: the
Select-long insert check, the Back-long delete check, then the compound
Select+Back confirm check, in source order.  Each insert/delete handler
ends in a busy-wait that re-samples every button until the waited button
is released, so the waited button leaves the wait as `waitRelease` of
itself, while the state of the *other* button at the end of that wait
depends on external raw input during the wait and is supplied as an
oracle (`backAfterSelWait`, `selAfterBackWait`). -/
def kbLongSection (s : AppState) (sel back : Btn) (now : Nat)
    (backAfterSelWait selAfterBackWait : Btn) : KbOut :=
  if s.currentScreen = Screen.wifiKeyboard then
    let st1 :=
      if longHeld now sel then
        (insertActiveChar s, waitRelease sel, backAfterSelWait)
      else (s, sel, back)
    let st2 :=
      if longHeld now st1.2.2 then
        (deleteActiveChar st1.1, selAfterBackWait, waitRelease st1.2.2)
      else st1
    if isPressed st2.2.1 = true ∧ isPressed st2.2.2 = true ∧
       st2.2.1.pressedAt ≠ 0 ∧ st2.2.2.pressedAt ≠ 0 ∧
       LONGPRESS_MS < now - st2.2.1.pressedAt ∧
       LONGPRESS_MS < now - st2.2.2.pressedAt then
      let s3 := { st2.1 with prefSsid := st2.1.manualSSID, prefPwd := st2.1.manualPassword }
      { st := startWiFiConnect s3 s3.manualSSID s3.manualPassword now
        sel := st2.2.1, back := st2.2.2, connectStarted := true }
    else { st := st2.1, sel := st2.2.1, back := st2.2.2, connectStarted := false }
  else { st := s, sel := sel, back := back, connectStarted := false }

/-- Successive keyboard-screen ticks of one physical Select
press-and-hold episode with Back at rest, at the `millis()` values `ts`:
while the button stays physically held its debounced state is unchanged
from tick to tick (raw stays LOW, so `updateOne` commits nothing new),
and once the insert gesture's busy-wait runs it exits only at the
episode's end, so no further tick of the episode follows it — the run
stops as soon as Select is no longer pressed. -/
def runSelEpisode (s : AppState) (sel : Btn) : List Nat → AppState × Btn
  | [] => (s, sel)
  | t :: ts =>
    let o := kbLongSection s sel releasedBtn t releasedBtn releasedBtn
    if isPressed o.sel then runSelEpisode o.st o.sel ts else (o.st, o.sel)

/-- Successive keyboard-screen ticks of one physical Back press-and-hold
episode with Select at rest, analogous to `runSelEpisode`. -/
def runBackEpisode (s : AppState) (back : Btn) : List Nat → AppState × Btn
  | [] => (s, back)
  | t :: ts =>
    let o := kbLongSection s releasedBtn back t releasedBtn releasedBtn
    if isPressed o.back then runBackEpisode o.st o.back ts else (o.st, o.back)

/-- The buffer currently being edited (per the active-field flag). -/
def activeBuf (s : AppState) : List Char :=
  if s.editingSSID then s.manualSSID else s.manualPassword

/-- Capacity of the buffer currently being edited. -/
def activeMax (s : AppState) : Nat := if s.editingSSID then 32 else 64

/-- A keyboard-screen state used as concrete input: secret field active,
cursor at the top-left `a` cell, secret buffer `"xy"`. -/
def sampleKbState : AppState :=
  { currentScreen := Screen.wifiKeyboard
    previousScreen := Screen.menu
    menuIndex := 0
    scannedSSIDs := []
    scannedCount := 0
    wifiListIndex := 0
    manualSSID := "net".data
    manualPassword := "xy".data
    editingSSID := false
    wifiConnected := false
    wifiConnectState := WiFiConnectState.idle
    wifiConnectStart := 0
    kbRow := 0
    kbCol := 0
    lastUiRefresh := 0
    prefSsid := []
    prefPwd := [] }

/-- A button stable-pressed since `millis() = 100`. -/
def heldBtn : Btn :=
  { stable := false, lastRaw := false, lastChange := 100, pressedAt := 100
    prevStable := false, toggles := 1 }

/-- A menu state with the fifth visible item ("Info / About", index 4)
selected. -/
def sampleMenuState : AppState :=
  { sampleKbState with currentScreen := Screen.menu, menuIndex := 4 }

/-- A Connecting-screen state in `WFC_CONNECTING`, attempt started at
`millis() = 0`, last UI refresh at `millis() = 100`. -/
def sampleConnState : AppState :=
  { sampleKbState with currentScreen := Screen.wifiConnecting
                       wifiConnectState := WiFiConnectState.connecting
                       wifiConnectStart := 0
                       lastUiRefresh := 100 }

/-- A scan-result state with one scanned network highlighted. -/
def sampleScanState : AppState :=
  { sampleKbState with currentScreen := Screen.wifiScan
                       scannedCount := 1
                       scannedSSIDs := ["HomeNet".data]
                       wifiListIndex := 0
                       manualPassword := "old".data
                       editingSSID := true
                       kbRow := 3
                       kbCol := 7 }


/-! ## Theorems -/

/-- C2: refuted on the code. A Select-short on the Menu screen with the
fifth visible item "Info / About" (index 4) selected dispatches to the
manual-credential-setup screen, not to the Info screen; the Info screen
sits at switch case 5, beyond the five-entry menu array. -/
theorem menu_index4_dispatch :
    (selShort sampleMenuState []).currentScreen = Screen.wifiManualSetup ∧
    Screen.wifiManualSetup ≠ Screen.info ∧
    (selShort { sampleMenuState with menuIndex := 5 } []).currentScreen = Screen.info := by
  decide

/-- C3: counterexample. On a tick in the Connecting state whose time is
within the UI-refresh interval of the last refresh, the poll step does
not execute, contradicting "executed exactly once on every tick while
Connecting". -/
theorem poll_skipped_within_interval :
    sampleConnState.currentScreen = Screen.wifiConnecting ∧
    sampleConnState.wifiConnectState = WiFiConnectState.connecting ∧
    (refreshTick sampleConnState 100 false "1.2.3.4").didPoll = false := by
  decide

/-- C3 (amended): on a tick during which the connection state machine is
in the Connecting state, the poll step executes iff the UI-refresh
interval (700 ms) has elapsed since the last refresh; it never depends on
button input. -/
theorem poll_runs_iff_interval_elapsed (s : AppState) (now : Nat) (linked : Bool)
    (ip : String)
    (hscr : s.currentScreen = Screen.wifiConnecting)
    (hst : s.wifiConnectState = WiFiConnectState.connecting) :
    (refreshTick s now linked ip).didPoll = true ↔
      UI_REFRESH_MS < now - s.lastUiRefresh := by
  unfold refreshTick
  by_cases h : UI_REFRESH_MS < now - s.lastUiRefresh
  · simp [h, hscr, hst]
  · simp [h]

/-- C3 witness: the amended claim applied at a concrete Connecting state
and tick time. -/
theorem poll_runs_iff_interval_elapsed_witness :
    (refreshTick sampleConnState 900 false "x").didPoll = true ↔
      UI_REFRESH_MS < 900 - sampleConnState.lastUiRefresh :=
  poll_runs_iff_interval_elapsed sampleConnState 900 false "x" rfl rfl

/-- C4: while the attempt is Connecting, a poll with the radio not linked
and within the 20 s timeout leaves the whole state unchanged with no
result reported and no abort; a poll past the timeout aborts the radio,
fails the attempt with "Timeout" and moves to the result screen, and from
the resulting state no later refresh tick ever polls or aborts again, so
the timeout transition fires exactly once per attempt. -/
theorem connect_timeout_once (s : AppState) (now : Nat) (ip : String)
    (hst : s.wifiConnectState = WiFiConnectState.connecting) :
    (now - s.wifiConnectStart ≤ WIFI_CONNECT_TIMEOUT →
      pollStep s now false ip = ⟨s, none, false⟩) ∧
    (WIFI_CONNECT_TIMEOUT < now - s.wifiConnectStart →
      (pollStep s now false ip).abort = true ∧
      (pollStep s now false ip).st.wifiConnectState = WiFiConnectState.failed ∧
      (pollStep s now false ip).result = some (false, "Timeout") ∧
      (pollStep s now false ip).st.currentScreen = Screen.wifiResult ∧
      ∀ (now2 : Nat) (linked2 : Bool) (ip2 : String),
        (refreshTick (pollStep s now false ip).st now2 linked2 ip2).didPoll = false ∧
        (refreshTick (pollStep s now false ip).st now2 linked2 ip2).abort = false) := by
  constructor
  · intro h
    simp [pollStep, Nat.not_lt.mpr h]
  · intro h
    refine ⟨by simp [pollStep, h], by simp [pollStep, h, showWiFiConnectResult],
      by simp [pollStep, h], by simp [pollStep, h, showWiFiConnectResult], ?_⟩
    intro now2 linked2 ip2
    unfold refreshTick
    constructor <;> · split <;> simp [pollStep, h, showWiFiConnectResult]

/-- C4 witness: the theorem applied at a concrete Connecting state, once
before the timeout and once past it. -/
theorem connect_timeout_once_witness :
    pollStep sampleConnState 100 false "x" = ⟨sampleConnState, none, false⟩ ∧
    (pollStep sampleConnState 30000 false "x").abort = true ∧
    (pollStep sampleConnState 30000 false "x").result = some (false, "Timeout") := by
  have h1 := (connect_timeout_once sampleConnState 100 "x" rfl).1 (by decide)
  have h2 := (connect_timeout_once sampleConnState 30000 "x" rfl).2 (by decide)
  exact ⟨h1, h2.1, h2.2.2.1⟩

/-- C5: counterexample. On the network-scan screen with at least one
result, a Select-short transitions to the keyboard editor, not to the
Menu screen, refuting "Select-short or Back-short both return every leaf
screen to Menu". -/
theorem scan_select_not_menu :
    sampleScanState.currentScreen = Screen.wifiScan ∧
    0 < sampleScanState.scannedCount ∧
    (selShort sampleScanState []).currentScreen = Screen.wifiKeyboard ∧
    Screen.wifiKeyboard ≠ Screen.menu := by
  decide

/-- C5 (amended): Back-short returns every leaf screen (LocalWeather,
ApiWeather, Geolocation, the scan list, ConnectionResult, Info) to Menu;
Select-short returns LocalWeather, ApiWeather, Geolocation,
ConnectionResult and Info to Menu; but Select-short on the scan list with
at least one entry opens the keyboard editor instead. -/
theorem leaf_escape_to_menu (s : AppState) (scanned : List (List Char)) :
    ((s.currentScreen = Screen.localWeather ∨ s.currentScreen = Screen.apiWeather ∨
      s.currentScreen = Screen.geolocation ∨ s.currentScreen = Screen.wifiScan ∨
      s.currentScreen = Screen.wifiResult ∨ s.currentScreen = Screen.info) →
      (backShort s).currentScreen = Screen.menu) ∧
    ((s.currentScreen = Screen.localWeather ∨ s.currentScreen = Screen.apiWeather ∨
      s.currentScreen = Screen.geolocation ∨ s.currentScreen = Screen.wifiResult ∨
      s.currentScreen = Screen.info) →
      (selShort s scanned).currentScreen = Screen.menu) ∧
    (s.currentScreen = Screen.wifiScan → 0 < s.scannedCount →
      (selShort s scanned).currentScreen = Screen.wifiKeyboard) := by
  refine ⟨?_, ?_, ?_⟩
  · rintro (h | h | h | h | h | h) <;> simp [backShort, gotoMenu, h]
  · rintro (h | h | h | h | h) <;> simp [selShort, gotoMenu, h]
  · intro h hc
    simp [selShort, h, hc]

/-- C5 witness: the amended claim applied at concrete leaf states. -/
theorem leaf_escape_to_menu_witness :
    (backShort sampleScanState).currentScreen = Screen.menu ∧
    (selShort sampleScanState []).currentScreen = Screen.wifiKeyboard := by
  refine ⟨(leaf_escape_to_menu sampleScanState []).1 ?_,
    (leaf_escape_to_menu sampleScanState []).2.2 rfl (by decide)⟩
  exact Or.inr (Or.inr (Or.inr (Or.inl rfl)))

/-- C8: from any in-bounds cursor position on the keyboard screen, each
of the four moves stays inside the 6×10 grid, clamps at the respective
edge, and never wraps to the opposite edge. -/
theorem kb_cursor_clamped (s : AppState) (scanned : List (List Char))
    (hscr : s.currentScreen = Screen.wifiKeyboard)
    (hr0 : 0 ≤ s.kbRow) (hr1 : s.kbRow < KEYBOARD_ROWS)
    (hc0 : 0 ≤ s.kbCol) (hc1 : s.kbCol < KEYBOARD_COLS) :
    (0 ≤ (upShort s).kbRow ∧ (upShort s).kbRow < KEYBOARD_ROWS) ∧
    (0 ≤ (downShort s).kbRow ∧ (downShort s).kbRow < KEYBOARD_ROWS) ∧
    (0 ≤ (backShort s).kbCol ∧ (backShort s).kbCol < KEYBOARD_COLS) ∧
    (0 ≤ (selShort s scanned).kbCol ∧ (selShort s scanned).kbCol < KEYBOARD_COLS) ∧
    (s.kbRow = 0 → (upShort s).kbRow = 0) ∧
    (s.kbRow = KEYBOARD_ROWS - 1 → (downShort s).kbRow = KEYBOARD_ROWS - 1) ∧
    (s.kbCol = 0 → (backShort s).kbCol = 0) ∧
    (s.kbCol = KEYBOARD_COLS - 1 → (selShort s scanned).kbCol = KEYBOARD_COLS - 1) := by
  have hu : (upShort s).kbRow = max 0 (s.kbRow - 1) := by simp [upShort, hscr]
  have hd : (downShort s).kbRow = min (KEYBOARD_ROWS - 1) (s.kbRow + 1) := by
    simp [downShort, hscr]
  have hb : (backShort s).kbCol = max 0 (s.kbCol - 1) := by simp [backShort, hscr]
  have hs : (selShort s scanned).kbCol = min (KEYBOARD_COLS - 1) (s.kbCol + 1) := by
    simp [selShort, hscr]
  rw [hu, hd, hb, hs]
  unfold KEYBOARD_ROWS KEYBOARD_COLS at *
  refine ⟨⟨?_, ?_⟩, ⟨?_, ?_⟩, ⟨?_, ?_⟩, ⟨?_, ?_⟩, ?_, ?_, ?_, ?_⟩ <;> omega

/-- C8 witness: the theorem applied at a concrete in-bounds keyboard
state, showing the clamp at the top-left corner. -/
theorem kb_cursor_clamped_witness :
    (upShort sampleKbState).kbRow = 0 ∧
    (backShort sampleKbState).kbCol = 0 := by
  have h := kb_cursor_clamped sampleKbState [] rfl (by decide) (by decide)
    (by decide) (by decide)
  exact ⟨h.2.2.2.2.1 rfl, h.2.2.2.2.2.2.1 rfl⟩

/-- C9: counterexample. A button whose raw level reads pressed at
startup is initialised with stable level pressed but `pressedAt = 0`,
violating "`pressedAt` is non-zero iff the stable level is pressed" at
the initialization point. -/
theorem init_pressed_breaks_invariant :
    (initB false 5).stable = false ∧ ¬ btnInv (initB false 5) := by
  decide

/-- C9 (amended): provided the button's raw level reads released at
startup, the invariant "`pressedAt` non-zero iff stable level pressed"
holds at initialization and is preserved by every debouncer update whose
timestamp is positive; a button already held at startup initialises with
`pressedAt = 0` despite a pressed stable level. -/
theorem pressedAt_invariant_amended :
    (∀ t : Nat, btnInv (initB true t)) ∧
    (∀ (b : Btn) (t : Nat) (raw : Bool),
      btnInv b → 0 < t → btnInv (updateOne b t raw)) := by
  constructor
  · intro t
    simp [btnInv, initB]
  · intro b t raw hinv ht
    unfold updateOne
    split_ifs with h1 h2 h3
    · simpa [btnInv] using hinv
    · simp [btnInv, h3]
      omega
    · simp [btnInv, h3]
    · exact hinv

/-- C9 witness: the amended claim applied to a button released at
startup and one update committing a press at a positive time. -/
theorem pressedAt_invariant_amended_witness :
    btnInv (initB true 7) ∧ btnInv (updateOne (initB true 7) 50 false) := by
  exact ⟨pressedAt_invariant_amended.1 7,
    pressedAt_invariant_amended.2 (initB true 7) 50 false (by decide) (by decide)⟩

/-- C10: a Select-short on the scan screen with at least one result
pre-seeds the network-name buffer from the highlighted entry, switches
the active field to the secret, resets the secret buffer to empty
(discarding any previously entered secret), resets the cursor to the
origin and opens the keyboard editor. -/
theorem scan_select_resets_secret (s : AppState) (scanned : List (List Char))
    (hscr : s.currentScreen = Screen.wifiScan) (hcnt : 0 < s.scannedCount) :
    (selShort s scanned).manualPassword = [] ∧
    (selShort s scanned).editingSSID = false ∧
    (selShort s scanned).kbRow = 0 ∧
    (selShort s scanned).kbCol = 0 ∧
    (selShort s scanned).currentScreen = Screen.wifiKeyboard ∧
    (selShort s scanned).manualSSID = s.scannedSSIDs.getD s.wifiListIndex.toNat [] := by
  simp [selShort, hscr, hcnt]

/-- C10 witness: the theorem applied at a concrete scan state whose
previously entered secret is discarded. -/
theorem scan_select_resets_secret_witness :
    (selShort sampleScanState []).manualPassword = [] ∧
    (selShort sampleScanState []).manualSSID = "HomeNet".data := by
  have h := scan_select_resets_secret sampleScanState [] rfl (by decide)
  exact ⟨h.1, by rw [h.2.2.2.2.2]; decide⟩

/-- A button at rest never satisfies the held-gesture condition. -/
theorem not_longHeld_releasedBtn (t : Nat) : ¬ longHeld t releasedBtn := by
  rintro ⟨h1, -, -⟩
  simp [isPressed, releasedBtn] at h1

/-- A cleared press timestamp rules out the held-gesture condition. -/
theorem not_longHeld_of_pressedAt_zero (t : Nat) (b : Btn) (h : b.pressedAt = 0) :
    ¬ longHeld t b := by
  rintro ⟨-, h2, -⟩
  exact h2 h

/-- A keyboard tick with Back at rest and Select short of the threshold
changes nothing. -/
theorem kbLongSection_quiet (s : AppState) (b : Btn) (t : Nat)
    (hscr : s.currentScreen = Screen.wifiKeyboard) (hb : ¬ longHeld t b) :
    kbLongSection s b releasedBtn t releasedBtn releasedBtn = ⟨s, b, releasedBtn, false⟩ := by
  have hr := not_longHeld_releasedBtn t
  have hC : ¬ (isPressed b = true ∧ isPressed releasedBtn = true ∧
      b.pressedAt ≠ 0 ∧ releasedBtn.pressedAt ≠ 0 ∧
      LONGPRESS_MS < t - b.pressedAt ∧ LONGPRESS_MS < t - releasedBtn.pressedAt) := by
    rintro ⟨-, h2, -⟩
    simp [isPressed, releasedBtn] at h2
  unfold kbLongSection
  simp [hscr, hb, hr, hC]

/-- A keyboard tick with Back at rest and Select held past the threshold
performs exactly the insert and leaves Select released. -/
theorem kbLongSection_selFire (s : AppState) (b : Btn) (t : Nat)
    (hscr : s.currentScreen = Screen.wifiKeyboard) (hb : longHeld t b) :
    kbLongSection s b releasedBtn t releasedBtn releasedBtn =
      ⟨insertActiveChar s, waitRelease b, releasedBtn, false⟩ := by
  have hr := not_longHeld_releasedBtn t
  have hC : ¬ (isPressed (waitRelease b) = true ∧ isPressed releasedBtn = true ∧
      (waitRelease b).pressedAt ≠ 0 ∧ releasedBtn.pressedAt ≠ 0 ∧
      LONGPRESS_MS < t - (waitRelease b).pressedAt ∧
      LONGPRESS_MS < t - releasedBtn.pressedAt) := by
    rintro ⟨h1, -⟩
    simp [isPressed, waitRelease] at h1
  unfold kbLongSection
  simp [hscr, hb, hr, hC]

/-- A keyboard tick with Select at rest and Back held past the threshold
performs exactly the delete and leaves Back released. -/
theorem kbLongSection_backFire (s : AppState) (b : Btn) (t : Nat)
    (hscr : s.currentScreen = Screen.wifiKeyboard) (hb : longHeld t b) :
    kbLongSection s releasedBtn b t releasedBtn releasedBtn =
      ⟨deleteActiveChar s, releasedBtn, waitRelease b, false⟩ := by
  have hr := not_longHeld_releasedBtn t
  have hC : ¬ (isPressed releasedBtn = true ∧ isPressed (waitRelease b) = true ∧
      releasedBtn.pressedAt ≠ 0 ∧ (waitRelease b).pressedAt ≠ 0 ∧
      LONGPRESS_MS < t - releasedBtn.pressedAt ∧
      LONGPRESS_MS < t - (waitRelease b).pressedAt) := by
    rintro ⟨h1, -⟩
    simp [isPressed, releasedBtn] at h1
  unfold kbLongSection
  simp [hscr, hb, hr, hC]

/-- C1: refuted on the code. The compound confirm branch is unreachable:
whenever a keyboard tick observes both buttons stable-pressed past the
long-press threshold, the Select-long insert handler fires first and its
busy-wait ends with Select released (similarly Back-long), so the
confirm check never sees both buttons still pressed — the section never
saves credentials and never transitions to Connecting.  Concretely, a
tick at `millis() = 2000` with both buttons held since `100` (a failing
input for the claim) inserts a character, deletes it again while waiting
out both holds, and leaves the whole state unchanged. -/
theorem confirm_gesture_unreachable :
    (∀ (s : AppState) (sel back : Btn) (now : Nat) (o1 o2 : Btn),
      (kbLongSection s sel back now o1 o2).connectStarted = false) ∧
    longHeld 2000 heldBtn ∧
    (kbLongSection sampleKbState heldBtn heldBtn 2000 heldBtn releasedBtn).st
      = sampleKbState := by
  refine ⟨?_, by decide, by decide⟩
  intro s sel back now o1 o2
  unfold kbLongSection
  by_cases hscr : s.currentScreen = Screen.wifiKeyboard
  · simp only [hscr, if_pos rfl]
    by_cases hS : longHeld now sel
    · by_cases hB : longHeld now o1
      · simp [hS, hB, isPressed, waitRelease]
      · simp [hS, hB, isPressed, waitRelease]
    · by_cases hB : longHeld now back
      · simp [hS, hB, isPressed, waitRelease]
      · have hC : ¬ (isPressed sel = true ∧ isPressed back = true ∧
            sel.pressedAt ≠ 0 ∧ back.pressedAt ≠ 0 ∧
            LONGPRESS_MS < now - sel.pressedAt ∧
            LONGPRESS_MS < now - back.pressedAt) := by
          rintro ⟨c1, -, c3, -, c5, -⟩
          exact hS ⟨c1, c3, c5⟩
        simp [hS, hB, hC]
  · simp [hscr]

/-- Inserting below capacity appends exactly the highlighted character to
the active buffer. -/
theorem insertActiveChar_activeBuf (s : AppState)
    (h : (activeBuf s).length < activeMax s) :
    activeBuf (insertActiveChar s) = activeBuf s ++ [keyCharAt s.kbRow s.kbCol] := by
  unfold activeBuf activeMax at h
  unfold insertActiveChar activeBuf
  by_cases he : s.editingSSID = true
  · simp [he] at h
    simp [he, h]
  · simp [he] at h
    simp [he, h]

/-- Deleting drops exactly the final character of the active buffer (a
no-op on an empty buffer, matching `List.dropLast`). -/
theorem deleteActiveChar_activeBuf (s : AppState) :
    activeBuf (deleteActiveChar s) = (activeBuf s).dropLast := by
  unfold deleteActiveChar activeBuf
  by_cases he : s.editingSSID = true
  · by_cases hl : 0 < s.manualSSID.length
    · simp [he, hl]
    · have h0 : s.manualSSID = [] :=
        List.length_eq_zero.mp (Nat.le_zero.mp (Nat.not_lt.mp hl))
      simp [he, hl, h0]
  · by_cases hl : 0 < s.manualPassword.length
    · simp [he, hl]
    · have h0 : s.manualPassword = [] :=
        List.length_eq_zero.mp (Nat.le_zero.mp (Nat.not_lt.mp hl))
      simp [he, hl, h0]

/-- C6: over the ticks of a single physical press-and-hold episode on the
keyboard screen, holding Select past the long-press threshold appends
exactly one character to the active buffer no matter how long the hold
continues; holding Back past the threshold removes at most one character
(exactly the last one, nothing on an empty buffer); with every tick short
of the threshold, nothing changes; and after firing, the gesture's button
is left released with its press timestamp cleared, so the gesture cannot
re-fire until a fresh press records a new timestamp. -/
theorem held_gesture_once_per_episode :
    (∀ (s : AppState) (b : Btn) (ts : List Nat),
      s.currentScreen = Screen.wifiKeyboard → isPressed b = true → b.pressedAt ≠ 0 →
      (activeBuf s).length < activeMax s →
      ((∀ t ∈ ts, ¬ LONGPRESS_MS < t - b.pressedAt) → runSelEpisode s b ts = (s, b)) ∧
      ((∃ t ∈ ts, LONGPRESS_MS < t - b.pressedAt) →
        activeBuf (runSelEpisode s b ts).1
          = activeBuf s ++ [keyCharAt s.kbRow s.kbCol] ∧
        (runSelEpisode s b ts).2.pressedAt = 0 ∧
        ∀ t2 : Nat, ¬ longHeld t2 (runSelEpisode s b ts).2)) ∧
    (∀ (s : AppState) (b : Btn) (ts : List Nat),
      s.currentScreen = Screen.wifiKeyboard → isPressed b = true → b.pressedAt ≠ 0 →
      ((∀ t ∈ ts, ¬ LONGPRESS_MS < t - b.pressedAt) → runBackEpisode s b ts = (s, b)) ∧
      ((∃ t ∈ ts, LONGPRESS_MS < t - b.pressedAt) →
        activeBuf (runBackEpisode s b ts).1 = (activeBuf s).dropLast ∧
        (runBackEpisode s b ts).2.pressedAt = 0 ∧
        ∀ t2 : Nat, ¬ longHeld t2 (runBackEpisode s b ts).2)) := by
  constructor
  · intro s b ts hscr hp hpa hlen
    induction ts with
    | nil =>
      refine ⟨fun _ => rfl, ?_⟩
      rintro ⟨t, ht, -⟩
      exact absurd ht (List.not_mem_nil t)
    | cons t ts ih =>
      by_cases hf : LONGPRESS_MS < t - b.pressedAt
      · have hstep := kbLongSection_selFire s b t hscr ⟨hp, hpa, hf⟩
        have hred : runSelEpisode s b (t :: ts) = (insertActiveChar s, waitRelease b) := by
          simp only [runSelEpisode, hstep]
          simp [isPressed, waitRelease]
        constructor
        · intro hall
          exact absurd hf (hall t (List.mem_cons_self t ts))
        · intro _
          rw [hred]
          exact ⟨insertActiveChar_activeBuf s hlen, rfl,
            fun t2 => not_longHeld_of_pressedAt_zero t2 _ rfl⟩
      · have hstep := kbLongSection_quiet s b t hscr (fun h => hf h.2.2)
        have hred : runSelEpisode s b (t :: ts) = runSelEpisode s b ts := by
          simp only [runSelEpisode, hstep]
          simp [hp]
        constructor
        · intro hall
          rw [hred]
          exact ih.1 (fun t2 ht2 => hall t2 (List.mem_cons_of_mem t ht2))
        · rintro ⟨t2, ht2, hthr⟩
          rw [hred]
          rcases List.mem_cons.mp ht2 with he | hm
          · exact absurd (he ▸ hthr) hf
          · exact ih.2 ⟨t2, hm, hthr⟩
  · intro s b ts hscr hp hpa
    induction ts with
    | nil =>
      refine ⟨fun _ => rfl, ?_⟩
      rintro ⟨t, ht, -⟩
      exact absurd ht (List.not_mem_nil t)
    | cons t ts ih =>
      by_cases hf : LONGPRESS_MS < t - b.pressedAt
      · have hstep := kbLongSection_backFire s b t hscr ⟨hp, hpa, hf⟩
        have hred : runBackEpisode s b (t :: ts) = (deleteActiveChar s, waitRelease b) := by
          simp only [runBackEpisode, hstep]
          simp [isPressed, waitRelease]
        constructor
        · intro hall
          exact absurd hf (hall t (List.mem_cons_self t ts))
        · intro _
          rw [hred]
          exact ⟨deleteActiveChar_activeBuf s, rfl,
            fun t2 => not_longHeld_of_pressedAt_zero t2 _ rfl⟩
      · have hquiet : ¬ longHeld t b := fun h => hf h.2.2
        have hstep : kbLongSection s releasedBtn b t releasedBtn releasedBtn
            = ⟨s, releasedBtn, b, false⟩ := by
          have hr := not_longHeld_releasedBtn t
          have hC : ¬ (isPressed releasedBtn = true ∧ isPressed b = true ∧
              releasedBtn.pressedAt ≠ 0 ∧ b.pressedAt ≠ 0 ∧
              LONGPRESS_MS < t - releasedBtn.pressedAt ∧
              LONGPRESS_MS < t - b.pressedAt) := by
            rintro ⟨h1, -⟩
            simp [isPressed, releasedBtn] at h1
          unfold kbLongSection
          simp [hscr, hr, hquiet, hC]
        have hred : runBackEpisode s b (t :: ts) = runBackEpisode s b ts := by
          simp only [runBackEpisode, hstep]
          simp [hp]
        constructor
        · intro hall
          rw [hred]
          exact ih.1 (fun t2 ht2 => hall t2 (List.mem_cons_of_mem t ht2))
        · rintro ⟨t2, ht2, hthr⟩
          rw [hred]
          rcases List.mem_cons.mp ht2 with he | hm
          · exact absurd (he ▸ hthr) hf
          · exact ih.2 ⟨t2, hm, hthr⟩

/-- C6 witness: a Select hold spanning ticks up to six times the
threshold appends exactly one character, and a Back episode whose ticks
all stay short of the threshold changes nothing. -/
theorem held_gesture_once_per_episode_witness :
    activeBuf (runSelEpisode sampleKbState heldBtn [150, 2000, 7300]).1
      = activeBuf sampleKbState
        ++ [keyCharAt sampleKbState.kbRow sampleKbState.kbCol] ∧
    runBackEpisode sampleKbState heldBtn [150] = (sampleKbState, heldBtn) := by
  have h1 := held_gesture_once_per_episode.1 sampleKbState heldBtn [150, 2000, 7300]
    rfl rfl (by decide) (by decide)
  have h2 := held_gesture_once_per_episode.2 sampleKbState heldBtn [150]
    rfl rfl (by decide)
  exact ⟨(h1.2 ⟨2000, by decide, by decide⟩).1, h2.1 (by decide)⟩

/-- During a low run the stable level never returns to released. -/
theorem updateOne_low_stable (b : Btn) (t : Nat) (h : b.stable = false) :
    (updateOne b t false).stable = false := by
  unfold updateOne
  split_ifs <;> simp_all

/-- `updateOne` never touches `prevStable`. -/
theorem updateOne_prevStable (b : Btn) (t : Nat) (raw : Bool) :
    (updateOne b t raw).prevStable = b.prevStable := by
  unfold updateOne
  split_ifs <;> rfl

/-- Once a press edge has been consumed (stable pressed, previous stable
pressed), no further edge fires for the remainder of a low run. -/
theorem fireCount_dead (samples : List (Nat × Bool)) :
    ∀ b : Btn, (∀ p ∈ samples, p.2 = false) → b.stable = false →
    b.prevStable = false → fireCount b samples = 0 := by
  induction samples with
  | nil => intro b _ _ _; rfl
  | cons p rest ih =>
    intro b hlow hs hp
    obtain ⟨t1, r1⟩ := p
    have h1 : r1 = false := hlow (t1, r1) (List.mem_cons_self _ _)
    subst h1
    have hust : (updateOne b t1 false).stable = false := updateOne_low_stable b t1 hs
    have hupr : (updateOne b t1 false).prevStable = false := by
      rw [updateOne_prevStable]
      exact hp
    simp only [fireCount, btnTick, pressedEdge]
    simp [hupr]
    exact ih _ (fun q hq => hlow q (List.mem_cons_of_mem _ hq)) (by simp [hust])
      (by simp [hust])

/-- At most one press edge over any all-low sample run, from any starting
state. -/
theorem fireCount_le_one (samples : List (Nat × Bool)) :
    ∀ b : Btn, (∀ p ∈ samples, p.2 = false) → fireCount b samples ≤ 1 := by
  induction samples with
  | nil => intro b _; simp [fireCount]
  | cons p rest ih =>
    intro b hlow
    obtain ⟨t1, r1⟩ := p
    have h1 : r1 = false := hlow (t1, r1) (List.mem_cons_self _ _)
    subst h1
    simp only [fireCount, btnTick, pressedEdge]
    by_cases hf :
        ((updateOne b t1 false).prevStable && !(updateOne b t1 false).stable) = true
    · have hst : (updateOne b t1 false).stable = false := by
        have h2 := Bool.and_elim_right hf
        simpa using h2
      have h0 : fireCount
          { updateOne b t1 false with prevStable := (updateOne b t1 false).stable }
          rest = 0 :=
        fireCount_dead rest _ (fun q hq => hlow q (List.mem_cons_of_mem _ hq))
          (by simp [hst]) (by simp [hst])
      simp [hf, h0]
    · simp [hf]
      exact ih _ (fun q hq => hlow q (List.mem_cons_of_mem _ hq))

/-- While the raw level sits low with the change timestamp at `t0`, no
commit and no edge happens up to `t0 + DEBOUNCE_MS` if the stable level
is still released. -/
theorem fireCount_inwindow (t0 : Nat) (rest : List (Nat × Bool)) :
    ∀ b : Btn, b.stable = true → b.lastRaw = false → b.lastChange = t0 →
    (∀ p ∈ rest, p.2 = false ∧ p.1 ≤ t0 + DEBOUNCE_MS) →
    fireCount b rest = 0 := by
  induction rest with
  | nil => intro b _ _ _ _; rfl
  | cons p rest ih =>
    intro b hs hlr hlc hall
    obtain ⟨t1, r1⟩ := p
    obtain ⟨h1, hle⟩ := hall (t1, r1) (List.mem_cons_self _ _)
    subst h1
    have hu : updateOne b t1 false = b := by
      have hA : ¬ (false ≠ b.lastRaw) := by simp [hlr]
      have hB : ¬ (DEBOUNCE_MS < t1 - b.lastChange ∧ b.stable ≠ false) := by
        rintro ⟨hd, -⟩
        rw [hlc, show DEBOUNCE_MS = 30 from rfl] at hd
        rw [show DEBOUNCE_MS = 30 from rfl] at hle
        omega
      unfold updateOne
      rw [if_neg hA, if_neg hB]
    simp only [fireCount, btnTick, hu, pressedEdge]
    simp [hs]
    exact ih _ (by simp [hs]) (by simp [hlr]) (by simp [hlc])
      (fun q hq => hall q (List.mem_cons_of_mem _ hq))

/-- C7: for every starting state and every sample sequence, `pressedEdge`
fires at most once over a contiguous low-level run (all samples pressed),
and a low run entered from a released stable level whose samples all fall
within the debounce window of the run's first sample produces no edge at
all — in particular runs shorter than the debounce window never fire. -/
theorem pressedEdge_bounce_rejection :
    (∀ (b : Btn) (samples : List (Nat × Bool)),
      (∀ p ∈ samples, p.2 = false) → fireCount b samples ≤ 1) ∧
    (∀ (b : Btn) (t0 : Nat) (rest : List (Nat × Bool)),
      b.stable = true → b.lastRaw = true →
      (∀ p ∈ rest, p.2 = false ∧ p.1 ≤ t0 + DEBOUNCE_MS) →
      fireCount b ((t0, false) :: rest) = 0) := by
  constructor
  · intro b samples h
    exact fireCount_le_one samples b h
  · intro b t0 rest hs hlr hall
    have hA : (false ≠ b.lastRaw) := by simp [hlr]
    have hu : updateOne b t0 false = { b with lastChange := t0, lastRaw := false } := by
      unfold updateOne
      rw [if_pos hA]
    simp only [fireCount, btnTick, hu, pressedEdge]
    simp [hs]
    exact fireCount_inwindow t0 rest _ (by simp [hs]) (by simp) (by simp) hall

/-- C7 witness: the theorem applied to a released button over a long low
run (at most one fire) and over a 29 ms bounce (no fire at all). -/
theorem pressedEdge_bounce_rejection_witness :
    fireCount releasedBtn [(100, false), (150, false)] ≤ 1 ∧
    fireCount releasedBtn [(100, false), (120, false), (129, false)] = 0 := by
  refine ⟨pressedEdge_bounce_rejection.1 releasedBtn _ (by decide), ?_⟩
  exact pressedEdge_bounce_rejection.2 releasedBtn 100 [(120, false), (129, false)]
    rfl rfl (by decide)
